import Mathlib

/-!
Verification of the Napkin AI API client against its specification.

This file gives a shallow embedding, in Lean 4, of the parts of the
repository that the specification's claims talk about:

* `src/api/models.py` — the `VisualRequest` / `StatusResponse` /
  `RateLimitInfo` pydantic models, their field constraints and the two
  cross-field model validators;
* `src/api/client.py` — `_handle_error_response`, `_extract_rate_limit_info`,
  `get_status` normalization, `wait_for_completion`, `get_rate_limit_status`;
* `src/utils/constants.py` — the built-in style catalog `STYLES`;
* `src/utils/helpers.py` — `sanitize_filename`, `get_env_bool`;
* `src/core/generator.py` — `VisualGenerator._generate_filename`.

Python strings are modelled as Lean `String`, machine integers as `Int`/`Nat`
(no overflow is relevant anywhere here), JSON numbers as integers, `None` as
`Option.none`, raised exceptions as explicit error values, and wall-clock
timestamps as explicit parameters.  `datetime.fromtimestamp` is modelled as
total on integer timestamps.
-/

/-- A JSON-like value, the codomain of pydantic `model_dump`. -/
inductive JsonVal where
  | null : JsonVal
  | str : String → JsonVal
  | int : Int → JsonVal
  | bool : Bool → JsonVal
  | list : List JsonVal → JsonVal
  | obj : List (String × JsonVal) → JsonVal
deriving Repr

/-- `OutputFormat` enum from `src/api/models.py`. -/
inductive OutputFormat where
  | svg : OutputFormat
  | png : OutputFormat
deriving DecidableEq, Repr

/-- The wire string of an `OutputFormat` (its enum value). -/
def OutputFormat.toStr : OutputFormat → String
  | .svg => "svg"
  | .png => "png"

/-- `RequestStatus` enum from `src/api/models.py`. -/
inductive RequestStatus where
  | pending : RequestStatus
  | processing : RequestStatus
  | completed : RequestStatus
  | failed : RequestStatus
  | expired : RequestStatus
deriving DecidableEq, Repr

/-- `RequestStatus(value)` — parse the provider's status string;
`none` models the `ValueError` raised for an unknown value. -/
def RequestStatus.ofString : String → Option RequestStatus
  | "pending" => some .pending
  | "processing" => some .processing
  | "completed" => some .completed
  | "failed" => some .failed
  | "expired" => some .expired
  | _ => none

/-- `VisualRequest` from `src/api/models.py` (field order as declared).
`api_token` is a `SecretStr` field declared with `exclude=True`. -/
structure VisualRequest where
  content : String
  format : OutputFormat
  context_before : Option String
  context_after : Option String
  style_id : Option String
  language : String
  transparent_background : Bool
  inverted_color : Bool
  number_of_visuals : Int
  width : Option Int
  height : Option Int
  visual_id : Option String
  visual_ids : Option (List String)
  visual_query : Option String
  visual_queries : Option (List String)
  api_token : Option String
deriving DecidableEq, Repr

/-- `LongText`: StrictStr with 1 ≤ length ≤ 10000. -/
def longTextOk (s : String) : Bool :=
  1 ≤ s.length && s.length ≤ 10000

/-- `ShortText`: StrictStr with 1 ≤ length ≤ 5000. -/
def shortTextOk (s : String) : Bool :=
  1 ≤ s.length && s.length ≤ 5000

/-- `IdStr`: 8 ≤ length ≤ 64, pattern `[A-Za-z0-9_-]+`. -/
def idStrOk (s : String) : Bool :=
  (8 ≤ s.length && s.length ≤ 64)
    && s.data.all (fun c => c.isAlphanum || c == '_' || c == '-')

/-- Split a character list on `-` (the shape of `str.split("-")`/the
regex groups): `"en-US"` becomes `[[e,n],[U,S]]`, the empty list becomes
`[[]]`. -/
def splitOnDash : List Char → List (List Char)
  | [] => [[]]
  | c :: rest =>
    let r := splitOnDash rest
    if c = '-' then [] :: r
    else
      match r with
      | [] => [[c]]
      | x :: xs => (c :: x) :: xs

/-- `LangCode`: 2 ≤ length ≤ 35, pattern `[A-Za-z]{2,3}(-[A-Za-z0-9]{2,8})*`. -/
def langCodeOk (s : String) : Bool :=
  (2 ≤ s.length && s.length ≤ 35)
    && (match splitOnDash s.data with
        | [] => false
        | p :: rest =>
          (2 ≤ p.length && p.length ≤ 3 && p.all Char.isAlpha)
            && rest.all fun q =>
                2 ≤ q.length && q.length ≤ 8 && q.all Char.isAlphanum)

/-- `PngDim`: StrictInt with 100 ≤ n ≤ 4096. -/
def pngDimOk (n : Int) : Bool :=
  100 ≤ n && n ≤ 4096

/-- Validity of an optional field: vacuous when the field is `None`. -/
def optOk (o : Option α) (f : α → Bool) : Bool :=
  match o with
  | some x => f x
  | none => true

/-- The declarative per-field constraints of `VisualRequest` (the `Annotated`
field types and the list length bounds on `visual_ids`/`visual_queries`,
including the two `field_validator`s, which re-check non-emptiness). -/
def VisualRequest.fieldsOk (r : VisualRequest) : Bool :=
  longTextOk r.content
    && optOk r.context_before shortTextOk
    && optOk r.context_after shortTextOk
    && optOk r.style_id idStrOk
    && langCodeOk r.language
    && (1 ≤ r.number_of_visuals && r.number_of_visuals ≤ 4)
    && optOk r.width pngDimOk
    && optOk r.height pngDimOk
    && optOk r.visual_id idStrOk
    && optOk r.visual_ids
        (fun l => (1 ≤ l.length && l.length ≤ 20) && l.all idStrOk)
    && optOk r.visual_query shortTextOk
    && optOk r.visual_queries
        (fun l => (1 ≤ l.length && l.length ≤ 20) && l.all shortTextOk)

/-- Construction of a `VisualRequest`: pydantic first checks the per-field
constraints and then runs the `_validate_png_dimensions` model validator,
which rejects `width`/`height` unless `format` is `png`. -/
def VisualRequest.validate (r : VisualRequest) : Except String VisualRequest :=
  if r.fieldsOk then
    if r.format != .png && (r.width.isSome || r.height.isSome) then
      .error "width and height can only be set when format=png"
    else
      .ok r
  else
    .error "field validation failed"

/-- One field of a pydantic dump: a `None` optional field is skipped under
`exclude_none=True` and serialized as JSON null otherwise. -/
def dumpField (excludeNone : Bool) (name : String) (v : Option JsonVal) :
    List (String × JsonVal) :=
  match v with
  | some j => [(name, j)]
  | none => if excludeNone then [] else [(name, JsonVal.null)]

/-- `VisualRequest.model_dump` — the wire form of the request, in field
declaration order.  `api_token` is declared with `exclude=True`, so it never
appears.  `create_visual` POSTs `request.model_dump(exclude_none=True)` as
the JSON body. -/
def VisualRequest.model_dump (r : VisualRequest) (excludeNone : Bool) :
    List (String × JsonVal) :=
  [("content", JsonVal.str r.content), ("format", JsonVal.str r.format.toStr)]
    ++ dumpField excludeNone "context_before" (r.context_before.map .str)
    ++ dumpField excludeNone "context_after" (r.context_after.map .str)
    ++ dumpField excludeNone "style_id" (r.style_id.map .str)
    ++ [("language", JsonVal.str r.language),
        ("transparent_background", JsonVal.bool r.transparent_background),
        ("inverted_color", JsonVal.bool r.inverted_color),
        ("number_of_visuals", JsonVal.int r.number_of_visuals)]
    ++ dumpField excludeNone "width" (r.width.map .int)
    ++ dumpField excludeNone "height" (r.height.map .int)
    ++ dumpField excludeNone "visual_id" (r.visual_id.map .str)
    ++ dumpField excludeNone "visual_ids"
        (r.visual_ids.map fun l => .list (l.map .str))
    ++ dumpField excludeNone "visual_query" (r.visual_query.map .str)
    ++ dumpField excludeNone "visual_queries"
        (r.visual_queries.map fun l => .list (l.map .str))

/-- The JSON body POSTed by `NapkinAPIClient.create_visual`
(`request.model_dump(exclude_none=True)`). -/
def createVisualBody (r : VisualRequest) : List (String × JsonVal) :=
  r.model_dump true

theorem dumpField_key {en : Bool} {n : String} {v : Option JsonVal}
    {kv : String × JsonVal} (h : kv ∈ dumpField en n v) : kv.1 = n := by
  cases v with
  | some j => simp [dumpField] at h; rw [h]
  | none =>
    cases en with
    | true => simp [dumpField] at h
    | false => simp [dumpField] at h; rw [h]

theorem mem_model_dump_key (r : VisualRequest) (en : Bool)
    (kv : String × JsonVal) (h : kv ∈ r.model_dump en) :
    kv.1 ∈ (["content", "format", "context_before", "context_after",
      "style_id", "language", "transparent_background", "inverted_color",
      "number_of_visuals", "width", "height", "visual_id", "visual_ids",
      "visual_query", "visual_queries"] : List String) := by
  simp only [VisualRequest.model_dump, List.append_assoc, List.mem_append] at h
  rcases h with h | h | h | h | h | h | h | h | h | h | h
  all_goals
    first
      | (rw [dumpField_key h]; decide)
      | (fin_cases h <;> decide)
      | (fin_cases h <;> simp)

theorem model_dump_key_ne_token (r : VisualRequest) (en : Bool)
    (kv : String × JsonVal) (h : kv ∈ r.model_dump en) :
    (kv.1 != "api_token") = true := by
  have h15 := mem_model_dump_key r en kv h
  simp only [List.mem_cons, List.not_mem_nil, or_false] at h15
  rcases h15 with h | h | h | h | h | h | h | h | h | h | h | h | h | h | h <;>
    rw [h] <;> decide

/-- C1: every serialized representation of a `VisualRequest` excludes the
`api_token` field: two requests that differ only in `api_token` produce
identical `model_dump` output (with or without `exclude_none`), no dumped
key is `api_token`, and in particular the JSON body POSTed by
`create_visual` never contains the token. -/
theorem C1_api_token_never_serialized (r : VisualRequest) (t : Option String)
    (en : Bool) :
    ({ r with api_token := t } : VisualRequest).model_dump en = r.model_dump en
    ∧ ((r.model_dump en).all fun kv => kv.1 != "api_token") = true
    ∧ ((createVisualBody r).all fun kv => kv.1 != "api_token") = true := by
  refine ⟨rfl, ?_, ?_⟩
  · rw [List.all_eq_true]
    intro kv hm
    exact model_dump_key_ne_token r en kv hm
  · rw [List.all_eq_true]
    intro kv hm
    exact model_dump_key_ne_token r true kv hm

/-- A `VisualRequest` with `format = png` and the given dimensions; all other
fields are valid constants (the example payload from the model docstring). -/
def pngRequest (w hgt : Int) : VisualRequest :=
  { content := "Machine Learning Pipeline"
    format := .png
    context_before := none
    context_after := none
    style_id := none
    language := "en-US"
    transparent_background := false
    inverted_color := false
    number_of_visuals := 1
    width := some w
    height := some hgt
    visual_id := none
    visual_ids := none
    visual_query := none
    visual_queries := none
    api_token := none }

/-- The same request with `format = svg` but a width supplied. -/
def svgWithWidthRequest : VisualRequest :=
  { pngRequest 500 500 with format := .svg, height := none }

/-- C3: constructing a `VisualRequest` with `format ≠ png` while supplying
`width` or `height` fails validation; with `format = png` and any
width/height in `[100, 4096]` (other fields valid) construction succeeds. -/
theorem C3_png_dimension_validation :
    (∀ r : VisualRequest, r.format ≠ .png → (r.width ≠ none ∨ r.height ≠ none) →
      ∀ v, r.validate ≠ Except.ok v)
    ∧ (∀ w hgt : Int, 100 ≤ w → w ≤ 4096 → 100 ≤ hgt → hgt ≤ 4096 →
      (pngRequest w hgt).validate = Except.ok (pngRequest w hgt)) := by
  constructor
  · intro r hfmt hwh v hok
    unfold VisualRequest.validate at hok
    by_cases h1 : r.fieldsOk
    · rw [if_pos h1] at hok
      by_cases h2 : (r.format != .png && (r.width.isSome || r.height.isSome)) = true
      · rw [if_pos h2] at hok
        exact Except.noConfusion hok
      · apply h2
        simp only [Bool.and_eq_true, Bool.or_eq_true]
        refine ⟨by simpa [bne_iff_ne] using hfmt, ?_⟩
        rcases hwh with hw | hh
        · left
          cases hv : r.width with
          | none => exact absurd hv hw
          | some x => rfl
        · right
          cases hv : r.height with
          | none => exact absurd hv hh
          | some x => rfl
    · rw [if_neg h1] at hok
      exact Except.noConfusion hok
  · intro w hgt h1 h2 h3 h4
    have hw : pngDimOk w = true := by
      unfold pngDimOk
      rw [decide_eq_true h1, decide_eq_true h2]
      rfl
    have hh : pngDimOk hgt = true := by
      unfold pngDimOk
      rw [decide_eq_true h3, decide_eq_true h4]
      rfl
    have hfields : (pngRequest w hgt).fieldsOk = true := by
      unfold VisualRequest.fieldsOk
      simp only [pngRequest, optOk, hw, hh]
      rfl
    unfold VisualRequest.validate
    rw [hfields]
    simp [pngRequest]

/-- Witness for C3 at concrete inputs. -/
theorem C3_png_dimension_validation_witness :
    (svgWithWidthRequest.validate ≠ Except.ok svgWithWidthRequest)
    ∧ (pngRequest 1024 768).validate = Except.ok (pngRequest 1024 768) :=
  ⟨C3_png_dimension_validation.1 svgWithWidthRequest (by decide)
      (Or.inl (by decide)) svgWithWidthRequest,
   C3_png_dimension_validation.2 1024 768 (by decide) (by decide) (by decide)
      (by decide)⟩

/-- `str.lower()` (ASCII case mapping, as exercised by the code). -/
def strToLower (s : String) : String :=
  String.mk (s.data.map Char.toLower)

/-- The truthy value set of `get_env_bool` in `src/utils/helpers.py`. -/
def envTrueValues : List String :=
  ["true", "1", "yes", "on"]

/-- `get_env_bool` from `src/utils/helpers.py`.  The environment lookup
`os.getenv(key, "")` is modelled by the `Option String` argument
(`none` = variable absent). -/
def get_env_bool (envValue : Option String) (deflt : Bool) : Bool :=
  let value := strToLower (envValue.getD "")
  if value = "" then deflt
  else envTrueValues.contains value

/-- C7 counterexample: with the variable set to `"false"` and a caller
default of `true`, the code returns `false`, not the caller-supplied
default the claim predicts. -/
theorem C7_counterexample : get_env_bool (some "false") true = false := by
  decide

/-- C7 (amended): `get_env_bool` returns true exactly when the lowercased
value is one of true/1/yes/on; it returns the caller-supplied default when
the variable is absent or its value is empty; it returns false for any
other non-empty value. -/
theorem C7_env_bool (envValue : Option String) (deflt : Bool) :
    (∀ s, envValue = some s → envTrueValues.contains (strToLower s) = true →
      get_env_bool envValue deflt = true)
    ∧ (strToLower (envValue.getD "") = "" →
      get_env_bool envValue deflt = deflt)
    ∧ (∀ s, envValue = some s → strToLower s ≠ "" →
      envTrueValues.contains (strToLower s) = false →
      get_env_bool envValue deflt = false) := by
  refine ⟨?_, ?_, ?_⟩
  · intro s hs hc
    subst hs
    have hne : ¬ strToLower s = "" := by
      intro he
      rw [he] at hc
      exact absurd hc (by decide)
    show (if strToLower s = "" then deflt
          else envTrueValues.contains (strToLower s)) = true
    rw [if_neg hne]
    exact hc
  · intro he
    show (if strToLower (envValue.getD "") = "" then deflt
          else envTrueValues.contains (strToLower (envValue.getD ""))) = deflt
    rw [if_pos he]
  · intro s hs hne hc
    subst hs
    show (if strToLower s = "" then deflt
          else envTrueValues.contains (strToLower s)) = false
    rw [if_neg hne]
    exact hc

/-- Witness for C7 at concrete inputs. -/
theorem C7_env_bool_witness :
    get_env_bool (some "YES") false = true
    ∧ get_env_bool none true = true
    ∧ get_env_bool (some "no") true = false :=
  ⟨(C7_env_bool (some "YES") false).1 "YES" rfl (by decide),
   (C7_env_bool none true).2.1 (by decide),
   (C7_env_bool (some "no") true).2.2 "no" rfl (by decide) (by decide)⟩

/-- Python string slice `s[:n]` for `n ≥ 0`. -/
def strTake (s : String) (n : Nat) : String :=
  String.mk (s.data.take n)

/-- `VisualGenerator._generate_filename` from `src/core/generator.py`.
The UTC timestamp string `datetime.now(timezone.utc).strftime("%Y%m%d_%H%M%S")`
is passed in as the `timestamp` argument (`file_id` is accepted but unused,
exactly as in the source). -/
def generate_filename (timestamp request_id file_id format : String)
    (index : Nat) : String :=
  if index > 0 then
    "napkin_" ++ timestamp ++ "_" ++ strTake request_id 8 ++ "_v"
      ++ toString (index + 1) ++ "." ++ format
  else
    "napkin_" ++ timestamp ++ "_" ++ strTake request_id 8 ++ "." ++ format

/-- C8 counterexample: for the 2nd file of a multi-variation request
(`index = n = 1`), the code produces suffix `_v2`, not the `_v1` the claim
predicts. -/
theorem C8_counterexample :
    generate_filename "20250101_000000" "REQ12345678" "file_2" "svg" 1
      = "napkin_20250101_000000_REQ12345_v2.svg"
    ∧ generate_filename "20250101_000000" "REQ12345678" "file_2" "svg" 1
      ≠ "napkin_20250101_000000_REQ12345_v1.svg" := by
  constructor <;> decide

/-- C8 (amended): with no provider filename, the generated name is
`napkin_{UTC timestamp}_{first 8 chars of request id}.{format}`, and for the
(n+1)-th file of a multi-variation request (n>0) the inserted suffix is
`_v{n+1}`. -/
theorem C8_generated_filename (ts rid fid fmt : String) (n : Nat) :
    generate_filename ts rid fid fmt 0
      = "napkin_" ++ ts ++ "_" ++ strTake rid 8 ++ "." ++ fmt
    ∧ (0 < n → generate_filename ts rid fid fmt n
      = "napkin_" ++ ts ++ "_" ++ strTake rid 8 ++ "_v"
          ++ toString (n + 1) ++ "." ++ fmt)
    ∧ (strTake rid 8).length ≤ 8 := by
  refine ⟨?_, ?_, ?_⟩
  · rw [generate_filename, if_neg (by decide)]
  · intro h
    rw [generate_filename, if_pos h]
  · have he : (strTake rid 8).length = (rid.data.take 8).length := rfl
    rw [he]
    exact List.length_take_le 8 rid.data

/-- Witness for C8 at concrete inputs. -/
theorem C8_generated_filename_witness :
    generate_filename "20250101_000000" "abcdefghij" "f" "png" 3
      = "napkin_20250101_000000_abcdefgh_v4.png" :=
  ((C8_generated_filename "20250101_000000" "abcdefghij" "f" "png" 3).2.1
    (by decide)).trans (by decide)

/-- `StyleCategory` enum from `src/utils/constants.py`. -/
inductive StyleCategory where
  | colorful : StyleCategory
  | casual : StyleCategory
  | hand_drawn : StyleCategory
  | formal : StyleCategory
  | monochrome : StyleCategory
  | custom : StyleCategory
deriving DecidableEq, Repr

/-- `Style` NamedTuple from `src/utils/constants.py`. -/
structure Style where
  id : String
  name : String
  description : String
  category : StyleCategory
deriving DecidableEq, Repr

/-- The built-in style catalog `STYLES` from `src/utils/constants.py`,
verbatim, in definition order (slug ↦ style). -/
def STYLES : List (String × Style) :=
  [("vibrant-strokes",
    ⟨"CDQPRVVJCSTPRBBCD5Q6AWR", "Vibrant Strokes",
     "A flow of vivid lines for bold notes", .colorful⟩),
   ("glowful-breeze",
    ⟨"CDQPRVVJCSTPRBBKDXK78", "Glowful Breeze",
     "A swirl of cheerful color for laid-back planning", .colorful⟩),
   ("bold-canvas",
    ⟨"CDQPRVVJCSTPRBB6DHGQ8", "Bold Canvas",
     "A vivid field of shapes for lively notes", .colorful⟩),
   ("radiant-blocks",
    ⟨"CDQPRVVJCSTPRBB6D5P6RSB4", "Radiant Blocks",
     "A bright spread of solid color for tasks", .colorful⟩),
   ("pragmatic-shades",
    ⟨"CDQPRVVJCSTPRBB7E9GP8TB5DST0", "Pragmatic Shades",
     "A palette of blended hues for bold ideas", .colorful⟩),
   ("carefree-mist",
    ⟨"CDGQ6XB1DGPQ6VV6EG", "Carefree Mist",
     "A wisp of calm tones for playful tasks", .casual⟩),
   ("lively-layers",
    ⟨"CDGQ6XB1DGPPCTBCDHJP8", "Lively Layers",
     "A breeze of soft color for bright ideas", .casual⟩),
   ("artistic-flair",
    ⟨"D1GPWS1DCDQPRVVJCSTPR", "Artistic Flair",
     "A splash of hand-drawn color for creative thinking", .hand_drawn⟩),
   ("sketch-notes",
    ⟨"D1GPWS1DDHMPWSBK", "Sketch Notes",
     "A hand-drawn style for free-flowing ideas", .hand_drawn⟩),
   ("elegant-outline",
    ⟨"CSQQ4VB1DGPP4V31CDNJTVKFBXK6JV3C", "Elegant Outline",
     "A refined black outline for professional clarity", .formal⟩),
   ("subtle-accent",
    ⟨"CSQQ4VB1DGPPRTB7D1T0", "Subtle Accent",
     "A light touch of color for professional documents", .formal⟩),
   ("monochrome-pro",
    ⟨"CSQQ4VB1DGPQ6TBECXP6ABB3DXP6YWG", "Monochrome Pro",
     "A single-color approach for focused presentations", .formal⟩),
   ("corporate-clean",
    ⟨"CSQQ4VB1DGPPTVVEDXHPGWKFDNJJTSKCC5T0", "Corporate Clean",
     "A professional flat style for business diagrams", .formal⟩),
   ("minimal-contrast",
    ⟨"DNQPWVV3D1S6YVB55NK6RRBM", "Minimal Contrast",
     "A clean monochrome style for focused work", .monochrome⟩),
   ("silver-beam",
    ⟨"CXS62Y9DCSQP6XBK", "Silver Beam",
     "A spotlight of gray scale ease with striking focus", .monochrome⟩)]

/-- C5 counterexample: the built-in catalog does not contain 16 styles. -/
theorem C5_counterexample : STYLES.length ≠ 16 := by
  decide

/-- C5 (amended): the built-in style catalog contains exactly 15 styles
spanning exactly 5 distinct categories, with pairwise distinct slugs (the
catalog is a compile-time constant; every catalog operation is a pure
lookup over it). -/
theorem C5_catalog_counts :
    STYLES.length = 15
    ∧ ((STYLES.map fun kv => kv.2.category).eraseDups).length = 5
    ∧ (STYLES.map Prod.fst).Nodup := by
  refine ⟨by decide, by decide, by decide⟩

/-- `StatusResponse` from `src/api/models.py`.  JSON numbers (progress,
counters, eta seconds) are modelled as integers; `files` holds the raw
provider-shaped file descriptors preserved by `get_status`. -/
structure StatusResponse where
  request_id : String
  status : RequestStatus
  progress : Option Int
  message : Option String
  files_ready : Int
  files_total : Int
  eta : Option Int
  error : Option String
  files : Option (List JsonVal)
deriving Repr

/-- Membership of a status in the terminal set
`{COMPLETED, FAILED, EXPIRED}` tested by `wait_for_completion`. -/
def RequestStatus.isTerminal : RequestStatus → Bool
  | .completed => true
  | .failed => true
  | .expired => true
  | .pending => false
  | .processing => false

/-- Result of `wait_for_completion`: the final `StatusResponse`, or a raised
`ProcessingError` with its message. -/
inductive WaitResult where
  | ok : StatusResponse → WaitResult
  | processingError : String → WaitResult
deriving Repr

/-- The polling loop of `wait_for_completion` (`while attempts < max_attempts`),
re-indexed structurally by `remaining = max_attempts - attempts`.  `poll i`
is the `StatusResponse` returned by the (i+1)-th `get_status` call; the
second component of the result counts the `get_status` calls issued.  The
sleep/backoff between polls (delay ← min(delay*1.2, 30)) only suspends the
task and is not observable here. -/
def waitLoop (poll : Nat → StatusResponse) (maxAttempts : Nat) :
    Nat → Nat → Nat → WaitResult × Nat
  | 0, _, calls =>
    (.processingError ("Timeout after " ++ toString maxAttempts ++ " attempts"),
     calls)
  | remaining + 1, attempts, calls =>
    let st := poll attempts
    if st.status.isTerminal then
      (if st.status = .failed then
        .processingError
          ("Visual generation failed: " ++ st.error.getD "Unknown error")
      else if st.status = .expired then
        .processingError "Request expired"
      else
        .ok st, calls + 1)
    else
      waitLoop poll maxAttempts remaining (attempts + 1) (calls + 1)

/-- `NapkinAPIClient.wait_for_completion`: `max_attempts` defaults to the
configured `max_poll_attempts` when `None` — and also when `0`, because
Python's `max_attempts or self.settings.max_poll_attempts` treats `0` as
falsy.  Returns the loop result together with the number of `get_status`
calls issued. -/
def wait_for_completion (settingsMaxPollAttempts : Nat)
    (poll : Nat → StatusResponse) (maxAttempts : Option Nat) :
    WaitResult × Nat :=
  let ma :=
    match maxAttempts with
    | none => settingsMaxPollAttempts
    | some 0 => settingsMaxPollAttempts
    | some m => m
  waitLoop poll ma ma 0 0

theorem waitLoop_all_nonterminal (poll : Nat → StatusResponse)
    (maxAttempts : Nat) :
    ∀ remaining attempts calls,
      (∀ i, attempts ≤ i → i < attempts + remaining →
        (poll i).status.isTerminal = false) →
      waitLoop poll maxAttempts remaining attempts calls
        = (.processingError
            ("Timeout after " ++ toString maxAttempts ++ " attempts"),
           calls + remaining) := by
  intro remaining
  induction remaining with
  | zero =>
    intro attempts calls _
    simp [waitLoop]
  | succ k ih =>
    intro attempts calls h
    have h0 : (poll attempts).status.isTerminal = false :=
      h attempts le_rfl (by omega)
    have hrec := ih (attempts + 1) (calls + 1)
      (fun i hi hi2 => h i (by omega) (by omega))
    have hc : calls + 1 + k = calls + (k + 1) := by omega
    simp only [waitLoop, h0, Bool.false_eq_true, if_false]
    rw [hrec, hc]

/-- C2: if every status poll returns a non-terminal status, then
`wait_for_completion` with a (positive) explicit `max_attempts` issues
exactly `max_attempts` `get_status` calls and then raises a
`ProcessingError` whose message reports that exact attempt count. -/
theorem C2_wait_for_completion_timeout (settingsMax : Nat)
    (poll : Nat → StatusResponse) (ma : Nat) (hpos : 0 < ma)
    (hnt : ∀ i, i < ma → (poll i).status.isTerminal = false) :
    wait_for_completion settingsMax poll (some ma)
      = (.processingError ("Timeout after " ++ toString ma ++ " attempts"),
         ma) := by
  cases ma with
  | zero => exact absurd hpos (by decide)
  | succ k =>
    show waitLoop poll (k + 1) (k + 1) 0 0 = _
    rw [waitLoop_all_nonterminal poll (k + 1) (k + 1) 0 0
      (fun i _ hi2 => hnt i (by omega))]
    simp

/-- A status oracle that always reports `processing`. -/
def pollProcessing : Nat → StatusResponse := fun _ =>
  { request_id := "REQ_abcd1234"
    status := .processing
    progress := none
    message := none
    files_ready := 0
    files_total := 0
    eta := none
    error := none
    files := none }

/-- Witness for C2 at concrete inputs. -/
theorem C2_wait_for_completion_timeout_witness :
    wait_for_completion 10 pollProcessing (some 3)
      = (.processingError "Timeout after 3 attempts", 3) :=
  (C2_wait_for_completion_timeout 10 pollProcessing 3 (by decide)
    (fun i _ => rfl)).trans rfl

/-- Strip characters satisfying `p` from both ends of a character list
(`str.strip(...)`): drop the matching suffix, then the matching prefix. -/
def stripChars (p : Char → Bool) (l : List Char) : List Char :=
  ((l.reverse.dropWhile p).reverse).dropWhile p

/-- Trailing part of a Python integer literal: every character a digit or an
underscore, with each underscore followed by a digit (so no trailing or
doubled underscores). -/
def scanTail : List Char → Bool
  | [] => true
  | c :: rest =>
    if c.isDigit then scanTail rest
    else if c = '_' then
      match rest with
      | [] => false
      | d :: _ => d.isDigit && scanTail rest
    else false

/-- Digit-sequence validity for Python `int(str)`: non-empty, starts with a
digit, digits optionally grouped by single underscores. -/
def digitsOk (l : List Char) : Bool :=
  match l with
  | [] => false
  | c :: _ => c.isDigit && scanTail l

/-- Decimal value of a digit sequence, skipping grouping underscores. -/
def digitsValue (l : List Char) : Nat :=
  l.foldl
    (fun acc c => if c.isDigit then acc * 10 + (c.toNat - '0'.toNat) else acc)
    0

/-- Python `int(s)` on a string: strip surrounding whitespace, optional
sign, decimal digits with optional underscore grouping; `none` models the
`ValueError` raised for anything else. -/
def parsePyInt (s : String) : Option Int :=
  let cs := stripChars Char.isWhitespace s.data
  match cs with
  | [] => none
  | c :: rest =>
    let signAndDigits : Bool × List Char :=
      if c = '-' then (true, rest)
      else if c = '+' then (false, rest)
      else (false, cs)
    if digitsOk signAndDigits.2 then
      some (if signAndDigits.1 then -(digitsValue signAndDigits.2 : Int)
            else (digitsValue signAndDigits.2 : Int))
    else none

/-- The typed error hierarchy raised by
`NapkinAPIClient._handle_error_response`, plus the unhandled `ValueError`
that `int()` raises there when `Retry-After` is present but not an
integer literal. -/
inductive ApiError where
  | authenticationError (message : String) (code : Option String)
      (details : Option JsonVal)
  | rateLimitError (message : String) (retryAfter : Int)
  | requestError (message : String) (code : Option String)
      (details : Option JsonVal)
  | napkinAPIError (message : String) (code : Option String)
      (details : Option JsonVal)
  | pythonValueError (message : String)
deriving Repr

/-- `NapkinAPIClient._handle_error_response`.  `errorMsg`/`errorCode`/
`details` are the values already extracted from the JSON error body (or the
response text fallback); `retryAfterHeader` is `response.headers`'s
`Retry-After` entry.  Status codes compared against `HTTP_STATUS`:
unauthorized = 401, rate_limit = 429, bad_request = 400. -/
def handle_error_response (statusCode : Int) (retryAfterHeader : Option String)
    (errorMsg : String) (errorCode : Option String)
    (details : Option JsonVal) : ApiError :=
  if statusCode = 401 then
    .authenticationError errorMsg errorCode details
  else if statusCode = 429 then
    match parsePyInt (retryAfterHeader.getD "60") with
    | some n => .rateLimitError errorMsg n
    | none => .pythonValueError "invalid literal for int() with base 10"
  else if statusCode = 400 then
    .requestError errorMsg errorCode details
  else
    .napkinAPIError errorMsg errorCode details

/-- C4 counterexample: a 429 response whose `Retry-After` header is present
but not parseable as an integer does not produce a rate-limit error with
`retry_after = 60` — the `int()` call raises an unhandled `ValueError`. -/
theorem C4_counterexample :
    handle_error_response 429 (some "abc") "Too many requests" none none
      = .pythonValueError "invalid literal for int() with base 10"
    ∧ handle_error_response 429 (some "abc") "Too many requests" none none
      ≠ .rateLimitError "Too many requests" 60 := by
  refine ⟨rfl, ?_⟩
  intro h
  rw [show handle_error_response 429 (some "abc") "Too many requests" none none
        = .pythonValueError "invalid literal for int() with base 10" from rfl]
    at h
  exact ApiError.noConfusion h

/-- C4 (amended): on status 429 the client raises a rate-limit error whose
`retry_after` equals the integer value of the `Retry-After` header, and
equals 60 when the header is absent; when the header is present but not
parseable as an integer, the `int()` conversion raises an unhandled
`ValueError` instead of producing a rate-limit error. -/
theorem C4_rate_limit_retry_after (retryAfterHeader : Option String)
    (msg : String) (code : Option String) (det : Option JsonVal) :
    (retryAfterHeader = none →
      handle_error_response 429 none msg code det = .rateLimitError msg 60)
    ∧ (∀ s n, retryAfterHeader = some s → parsePyInt s = some n →
      handle_error_response 429 retryAfterHeader msg code det
        = .rateLimitError msg n)
    ∧ (∀ s, retryAfterHeader = some s → parsePyInt s = none →
      handle_error_response 429 retryAfterHeader msg code det
        = .pythonValueError "invalid literal for int() with base 10") := by
  refine ⟨fun _ => rfl, ?_, ?_⟩
  · intro s n hs hp
    subst hs
    unfold handle_error_response
    rw [if_neg (by decide), if_pos rfl]
    simp only [Option.getD]
    rw [hp]
  · intro s hs hp
    subst hs
    unfold handle_error_response
    rw [if_neg (by decide), if_pos rfl]
    simp only [Option.getD]
    rw [hp]

/-- Witness for C4 at concrete inputs. -/
theorem C4_rate_limit_retry_after_witness :
    handle_error_response 429 none "m" none none = .rateLimitError "m" 60
    ∧ handle_error_response 429 (some "30") "m" none none
      = .rateLimitError "m" 30
    ∧ handle_error_response 429 (some "x") "m" none none
      = .pythonValueError "invalid literal for int() with base 10" :=
  ⟨(C4_rate_limit_retry_after none "m" none none).1 rfl,
   (C4_rate_limit_retry_after (some "30") "m" none none).2.1 "30" 30 rfl rfl,
   (C4_rate_limit_retry_after (some "x") "m" none none).2.2 "x" rfl rfl⟩

/-- `RateLimitInfo` from `src/api/models.py` (datetimes as epoch seconds). -/
structure RateLimitInfo where
  limit : Int
  remaining : Int
  reset : Int
  retry_after : Option Int
deriving DecidableEq, Repr

/-- The response headers consulted by `_extract_rate_limit_info` and
`_handle_error_response`. -/
structure RespHeaders where
  xRateLimitLimit : Option String
  xRateLimitRemaining : Option String
  xRateLimitReset : Option String
  retryAfter : Option String
deriving Repr

/-- `NapkinAPIClient._extract_rate_limit_info`, with `now` the current UTC
epoch time.  The guard requires `X-RateLimit-Limit` or `Retry-After` to be
present; limit/remaining parse defensively (defaults 60/0, also on a parse
failure); the reset timestamp comes from `X-RateLimit-Reset` when it parses
(`datetime.fromtimestamp` modelled as total on integers), else — only on a
parse failure of a present header — from `now + Retry-After`; finally the
pydantic `RateLimitInfo` construction itself (required `reset`, `ge=0`
bounds) can raise, which the outer `except` turns into `None`. -/
def extract_rate_limit_info (now : Int) (h : RespHeaders) :
    Option RateLimitInfo :=
  if h.xRateLimitLimit.isSome || h.retryAfter.isSome then
    let limit : Int := (h.xRateLimitLimit.bind parsePyInt).getD 60
    let remaining : Int := (h.xRateLimitRemaining.bind parsePyInt).getD 0
    let reset : Option Int :=
      match h.xRateLimitReset with
      | none => none
      | some s =>
        match parsePyInt s with
        | some n => some n
        | none =>
          match h.retryAfter with
          | none => none
          | some ra =>
            match parsePyInt ra with
            | some r => some (now + r)
            | none => none
    let retry_after : Option Int := h.retryAfter.bind parsePyInt
    match reset with
    | none => none
    | some rs =>
      if 0 ≤ limit && 0 ≤ remaining
          && (match retry_after with
              | some r => decide (0 ≤ r)
              | none => true) then
        some ⟨limit, remaining, rs, retry_after⟩
      else
        none
  else
    none

/-- The client's mutable `rate_limit_info` slot after a sequence of
`_make_request` calls, each response given as (current time, headers):
`self.rate_limit_info = self._extract_rate_limit_info(response)` runs after
every request, unconditionally overwriting the slot.
`get_rate_limit_status()` returns this value. -/
def rate_limit_after (resps : List (Int × RespHeaders)) : Option RateLimitInfo :=
  resps.foldl (fun _ r => extract_rate_limit_info r.1 r.2) none

/-- A response carrying valid rate-limit headers. -/
def headersWithRL : RespHeaders :=
  { xRateLimitLimit := some "60"
    xRateLimitRemaining := some "10"
    xRateLimitReset := some "1700000000"
    retryAfter := none }

/-- A response carrying no rate-limit headers. -/
def headersNoRL : RespHeaders :=
  { xRateLimitLimit := none
    xRateLimitRemaining := none
    xRateLimitReset := none
    retryAfter := none }

/-- C9 counterexample: after a response that carried rate-limit headers
followed by one that did not, `get_rate_limit_status()` returns `none`,
even though a response has carried rate-limit headers — the claim's
"returns none only if no response so far has carried rate-limit headers"
fails. -/
theorem C9_counterexample :
    (extract_rate_limit_info 0 headersWithRL).isSome = true
    ∧ rate_limit_after [(0, headersWithRL), (5, headersNoRL)] = none := by
  exact ⟨by decide, by decide⟩

/-- C9 (amended): `get_rate_limit_status()` returns the `RateLimitInfo`
extracted from the most recent response — every request overwrites the
slot, so it is `none` exactly when no request has been made or the most
recent response yielded no rate-limit info. -/
theorem C9_rate_limit_slot (resps : List (Int × RespHeaders))
    (r : Int × RespHeaders) :
    rate_limit_after (resps ++ [r]) = extract_rate_limit_info r.1 r.2
    ∧ rate_limit_after [] = none := by
  constructor
  · unfold rate_limit_after
    rw [List.foldl_append]
    rfl
  · rfl

/-- A provider status payload, as consumed by `get_status`
(`response.json()`): each of the three file-list keys is `some` exactly
when the payload maps it to a JSON list. -/
structure StatusPayload where
  status : String
  progress : Option Int
  message : Option String
  error : Option String
  generated_files : Option (List JsonVal)
  files : Option (List JsonVal)
  urls : Option (List String)
  files_ready : Option Int
  files_total : Option Int
deriving Repr

/-- The normalized candidate file list of `get_status`: prefer
`generated_files`, then `files`, then `urls` (each url wrapped as a
single-key `{url: ...}` record). -/
def candidateFiles (p : StatusPayload) : Option (List JsonVal) :=
  match p.generated_files with
  | some l => some l
  | none =>
    match p.files with
    | some l => some l
    | none =>
      match p.urls with
      | some us => some (us.map fun u => JsonVal.obj [("url", JsonVal.str u)])
      | none => none

/-- Pydantic construction of a `StatusResponse`: the declared field
constraints (`IdStr` request id, progress 0..100, `ShortText` message,
`BytesCount` counters — which subsumes the validator's own `≥ 0` re-check —
error 1..2000 chars) and then the `_validate_file_counts` model validator
(`files_ready ≤ files_total` unless `files_total = 0`). -/
def mkStatusResponse (s : StatusResponse) : Except String StatusResponse :=
  if idStrOk s.request_id
      && optOk s.progress (fun p => 0 ≤ p && p ≤ 100)
      && optOk s.message shortTextOk
      && (0 ≤ s.files_ready && 0 ≤ s.files_total)
      && optOk s.error (fun e => 1 ≤ e.length && e.length ≤ 2000) then
    if s.files_ready > s.files_total && s.files_total != 0 then
      .error "files_ready cannot exceed files_total"
    else
      .ok s
  else
    .error "field validation failed"

/-- `NapkinAPIClient.get_status`: parse the status enum, normalize the file
list, and when a candidate list exists set both counters to its length
(ignoring the payload's own numeric counters, which are used — with
`int(.. or 0)` defaulting — only when no list-shaped key is present);
finally attach the candidate list to the constructed response. -/
def get_status (request_id : String) (payload : StatusPayload) :
    Except String StatusResponse :=
  match RequestStatus.ofString payload.status with
  | none => .error "invalid status value"
  | some st =>
    let candidate := candidateFiles payload
    let counts : Int × Int :=
      match candidate with
      | some l => (l.length, l.length)
      | none => (payload.files_ready.getD 0, payload.files_total.getD 0)
    (mkStatusResponse
      { request_id := request_id
        status := st
        progress := payload.progress
        message := payload.message
        files_ready := counts.1
        files_total := counts.2
        eta := none
        error := payload.error
        files := none }).map
      fun s => { s with files := candidate }

theorem mkStatusResponse_ok {x v : StatusResponse}
    (h : mkStatusResponse x = .ok v) : v = x := by
  unfold mkStatusResponse at h
  split_ifs at h
  all_goals
    first
      | exact Except.noConfusion h
      | (injection h with h; exact h.symm)

/-- C10: whenever the provider payload contained a file list under any of
`generated_files`/`files`/`urls`, every `StatusResponse` that `get_status`
returns has `files_ready = files_total = ` length of the normalized list,
carries that list, and the payload's own numeric counters are ignored
(changing them does not change the result). -/
theorem C10_get_status_counts (rid : String) (p : StatusPayload)
    (s : StatusResponse) (l : List JsonVal)
    (hc : candidateFiles p = some l)
    (hok : get_status rid p = .ok s) :
    s.files_ready = (l.length : Int)
    ∧ s.files_total = (l.length : Int)
    ∧ s.files = some l
    ∧ ∀ fr ft : Option Int,
        get_status rid
          { p with files_ready := fr, files_total := ft } = .ok s := by
  cases hst : RequestStatus.ofString p.status with
  | none =>
    unfold get_status at hok
    rw [hst] at hok
    exact Except.noConfusion hok
  | some st =>
    unfold get_status at hok
    rw [hst] at hok
    simp only [hc] at hok
    cases hmk : mkStatusResponse
        { request_id := rid
          status := st
          progress := p.progress
          message := p.message
          files_ready := (l.length : Int)
          files_total := (l.length : Int)
          eta := none
          error := p.error
          files := none } with
    | error e =>
      rw [hmk] at hok
      exact Except.noConfusion hok
    | ok v =>
      rw [hmk] at hok
      simp only [Except.map] at hok
      injection hok with hok
      have hv := mkStatusResponse_ok hmk
      subst hv
      subst hok
      refine ⟨rfl, rfl, rfl, ?_⟩
      intro fr ft
      have hst2 : RequestStatus.ofString
          ({ p with files_ready := fr, files_total := ft } :
            StatusPayload).status = some st := hst
      have hc2 : candidateFiles
          ({ p with files_ready := fr, files_total := ft } :
            StatusPayload) = some l := hc
      unfold get_status
      rw [hst2]
      simp only [hc2]
      rw [hmk]
      rfl

/-- The payload of the C10 witness: one file under the bare `urls` key. -/
def payloadWithUrls : StatusPayload :=
  { status := "completed"
    progress := none
    message := none
    error := none
    generated_files := none
    files := none
    urls := some ["https://cdn.example.com/a.svg"]
    files_ready := some 0
    files_total := some 0 }

/-- The status response `get_status` produces for `payloadWithUrls`. -/
def statusRespUrls : StatusResponse :=
  { request_id := "REQ_abcd1234"
    status := .completed
    progress := none
    message := none
    files_ready := 1
    files_total := 1
    eta := none
    error := none
    files := some [JsonVal.obj [("url", JsonVal.str "https://cdn.example.com/a.svg")]] }

/-- Witness for C10 at concrete inputs. -/
theorem C10_get_status_counts_witness :
    statusRespUrls.files_ready = ((1 : Nat) : Int)
    ∧ statusRespUrls.files_total = ((1 : Nat) : Int)
    ∧ statusRespUrls.files
      = some [JsonVal.obj [("url", JsonVal.str "https://cdn.example.com/a.svg")]] :=
  (C10_get_status_counts "REQ_abcd1234" payloadWithUrls statusRespUrls
    [JsonVal.obj [("url", JsonVal.str "https://cdn.example.com/a.svg")]]
    rfl rfl).2.2.1 |> fun h =>
    ⟨(C10_get_status_counts "REQ_abcd1234" payloadWithUrls statusRespUrls
        [JsonVal.obj [("url", JsonVal.str "https://cdn.example.com/a.svg")]]
        rfl rfl).1,
     (C10_get_status_counts "REQ_abcd1234" payloadWithUrls statusRespUrls
        [JsonVal.obj [("url", JsonVal.str "https://cdn.example.com/a.svg")]]
        rfl rfl).2.1, h⟩

theorem dropWhile_head_false {α : Type} {p : α → Bool} :
    ∀ (l : List α) (c : α), (l.dropWhile p).head? = some c → p c = false := by
  intro l
  induction l with
  | nil => intro c h; simp [List.dropWhile] at h
  | cons a t ih =>
    intro c h
    rw [List.dropWhile_cons] at h
    by_cases hp : p a = true
    · rw [if_pos hp] at h
      exact ih c h
    · rw [if_neg hp] at h
      simp only [List.head?, Option.some.injEq] at h
      rw [← h]
      exact Bool.eq_false_iff.mpr hp

theorem dropWhile_getLast {α : Type} {p : α → Bool} :
    ∀ (l : List α), l.dropWhile p ≠ [] →
      (l.dropWhile p).getLast? = l.getLast? := by
  intro l
  induction l with
  | nil => intro h; simp [List.dropWhile] at h
  | cons a t ih =>
    intro h
    rw [List.dropWhile_cons] at h ⊢
    by_cases hp : p a = true
    · rw [if_pos hp] at h ⊢
      have ht : t ≠ [] := by
        intro he
        rw [he] at h
        simp [List.dropWhile] at h
      cases t with
      | nil => exact absurd rfl ht
      | cons b t2 => rw [ih h, List.getLast?_cons_cons]
    · rw [if_neg hp]

theorem mem_of_mem_dropWhile {α : Type} {p : α → Bool} {c : α}
    {l : List α} (h : c ∈ l.dropWhile p) : c ∈ l :=
  (List.dropWhile_sublist p).subset h

theorem stripChars_subset {p : Char → Bool} {c : Char} {l : List Char}
    (h : c ∈ stripChars p l) : c ∈ l := by
  unfold stripChars at h
  have h1 := mem_of_mem_dropWhile h
  rw [List.mem_reverse] at h1
  have h2 := mem_of_mem_dropWhile h1
  rw [List.mem_reverse] at h2
  exact h2

theorem stripChars_length_le (p : Char → Bool) (l : List Char) :
    (stripChars p l).length ≤ l.length := by
  unfold stripChars
  calc ((l.reverse.dropWhile p).reverse.dropWhile p).length
      ≤ (l.reverse.dropWhile p).reverse.length :=
        (List.dropWhile_sublist p).length_le
    _ = (l.reverse.dropWhile p).length := List.length_reverse _
    _ ≤ l.reverse.length := (List.dropWhile_sublist p).length_le
    _ = l.length := List.length_reverse _

theorem stripChars_head {p : Char → Bool} {c : Char} {l : List Char}
    (h : (stripChars p l).head? = some c) : p c = false :=
  dropWhile_head_false _ c h

theorem stripChars_getLast {p : Char → Bool} {c : Char} {l : List Char}
    (h : (stripChars p l).getLast? = some c) : p c = false := by
  unfold stripChars at h
  have hne : ((l.reverse.dropWhile p).reverse).dropWhile p ≠ [] := by
    intro he
    rw [he] at h
    simp at h
  rw [dropWhile_getLast _ hne, List.getLast?_reverse] at h
  exact dropWhile_head_false _ c h

/-- The unsafe character set of `sanitize_filename` in
`src/utils/helpers.py`: `<>:"|?*\/` plus CR, LF and TAB. -/
def unsafeChars : List Char :=
  ['<', '>', ':', '"', '|', '?', '*', '\\', '/', '\r', '\n', '\t']

/-- One step of the replacement loop.  The source replaces each unsafe
character (one `str.replace` per character) with `_`; since `_` is not
itself unsafe, the sequential replaces equal this character-wise map. -/
def replChar (c : Char) : Char :=
  if unsafeChars.contains c then '_' else c

/-- `filename.rsplit(".", 1)`: split at the last dot, `none` when the
string contains no dot. -/
def rsplitDot : List Char → Option (List Char × List Char)
  | [] => none
  | c :: rest =>
    match rsplitDot rest with
    | some (n, e) => some (c :: n, e)
    | none => if c = '.' then some ([], rest) else none

/-- Python slice `name[:m]` for an `int` bound `m` (negative bounds count
from the end, clamped at zero). -/
def pyTake (l : List Char) (m : Int) : List Char :=
  l.take (if m < 0 then ((l.length : Int) + m).toNat else m.toNat)

/-- The length-limiting step of `sanitize_filename`: beyond 255 characters,
keep the extension when a dot is present (`name[:255 - len(ext) - 1]` plus
`.ext`), else plain `filename[:255]`. -/
def truncate255 (l : List Char) : List Char :=
  if 255 < l.length then
    match rsplitDot l with
    | some (n, e) => pyTake n (255 - (e.length : Int) - 1) ++ '.' :: e
    | none => l.take 255
  else l

/-- `filename.strip(". ")`. -/
def stripDotsSpaces (l : List Char) : List Char :=
  stripChars (fun c => c == '.' || c == ' ') l

/-- `sanitize_filename` from `src/utils/helpers.py`: replace unsafe
characters, limit the length, strip leading/trailing dots and spaces,
default to `"untitled"` when empty. -/
def sanitize_filename (s : String) : String :=
  let replaced := s.data.map replChar
  let truncated := truncate255 replaced
  let stripped := stripDotsSpaces truncated
  if stripped.isEmpty then "untitled" else String.mk stripped

/-- Whether any trailing extension of the (replaced) name is short enough
for the truncation step to respect the 255-character bound. -/
def extOk (l : List Char) : Bool :=
  match rsplitDot l with
  | none => true
  | some (_, e) => e.length ≤ 254

/-- C6 counterexample: the control character `\x01` is not replaced — only
CR, LF and TAB among the control characters are in the unsafe set — so the
claimed "every control character becomes an underscore" fails. -/
theorem C6_counterexample :
    sanitize_filename (String.mk ['\x01', 'a']) ≠ "_a"
    ∧ sanitize_filename (String.mk ['\x01', 'a']) = String.mk ['\x01', 'a'] := by
  constructor
  · decide
  · rfl

theorem rsplitDot_mem :
    ∀ {l n e : List Char}, rsplitDot l = some (n, e) →
      (∀ c ∈ n, c ∈ l) ∧ (∀ c ∈ e, c ∈ l) := by
  intro l
  induction l with
  | nil => intro n e h; simp [rsplitDot] at h
  | cons a t ih =>
    intro n e h
    cases hr : rsplitDot t with
    | some q =>
      obtain ⟨n2, e2⟩ := q
      simp only [rsplitDot, hr, Option.some.injEq, Prod.mk.injEq] at h
      obtain ⟨h1, h2⟩ := h
      subst h1
      subst h2
      obtain ⟨hn, he⟩ := ih hr
      constructor
      · intro c hc
        rcases List.mem_cons.mp hc with hc | hc
        · exact hc ▸ List.mem_cons_self a t
        · exact List.mem_cons_of_mem a (hn c hc)
      · intro c hc
        exact List.mem_cons_of_mem a (he c hc)
    | none =>
      simp only [rsplitDot, hr] at h
      by_cases ha : a = '.'
      · rw [if_pos ha] at h
        simp only [Option.some.injEq, Prod.mk.injEq] at h
        obtain ⟨h1, h2⟩ := h
        subst h1
        subst h2
        constructor
        · intro c hc
          simp at hc
        · intro c hc
          exact List.mem_cons_of_mem a hc
      · rw [if_neg ha] at h
        exact Option.noConfusion h

theorem truncate255_mem {c : Char} {l : List Char}
    (h : c ∈ truncate255 l) : c ∈ l ∨ c = '.' := by
  unfold truncate255 at h
  by_cases h255 : 255 < l.length
  · rw [if_pos h255] at h
    cases hr : rsplitDot l with
    | none =>
      simp only [hr] at h
      exact Or.inl (List.take_subset _ _ h)
    | some q =>
      obtain ⟨n, e⟩ := q
      simp only [hr] at h
      unfold pyTake at h
      rcases List.mem_append.mp h with h | h
      · exact Or.inl ((rsplitDot_mem hr).1 c (List.take_subset _ _ h))
      · rcases List.mem_cons.mp h with h | h
        · exact Or.inr h
        · exact Or.inl ((rsplitDot_mem hr).2 c h)
  · rw [if_neg h255] at h
    exact Or.inl h

theorem truncate255_length {l : List Char} (h : extOk l = true) :
    (truncate255 l).length ≤ 255 := by
  unfold truncate255
  by_cases h255 : 255 < l.length
  · rw [if_pos h255]
    cases hr : rsplitDot l with
    | none =>
      simp only [hr]
      exact List.length_take_le _ _
    | some q =>
      obtain ⟨n, e⟩ := q
      simp only [hr]
      unfold extOk at h
      rw [hr] at h
      have he : e.length ≤ 254 := of_decide_eq_true h
      rw [List.length_append, List.length_cons]
      unfold pyTake
      have hm : ¬((255 - (e.length : Int) - 1) < 0) := by omega
      rw [if_neg hm]
      have h2 := List.length_take_le ((255 - (e.length : Int) - 1).toNat) n
      omega
  · rw [if_neg h255]
    omega

/-- C6 (amended): for every input, `sanitize_filename` replaces every
occurrence of `<>:"|?*\/` and of the control characters CR, LF and TAB
(only those control characters) with an underscore, truncates to at most
255 characters preserving a trailing extension (the bound is guaranteed
whenever any trailing extension is at most 254 characters long), strips
leading and trailing dots and spaces, and returns `untitled` when the
result is empty; the spec's own example `a:b/c*d?.svg ↦ a_b_c_d_.svg`
holds. -/
theorem C6_sanitize_filename :
    (∀ s : String,
      (∀ c ∈ (sanitize_filename s).data, unsafeChars.contains c = false)
      ∧ sanitize_filename s ≠ ""
      ∧ ((sanitize_filename s).data.head? ≠ some '.'
          ∧ (sanitize_filename s).data.head? ≠ some ' '
          ∧ (sanitize_filename s).data.getLast? ≠ some '.'
          ∧ (sanitize_filename s).data.getLast? ≠ some ' ')
      ∧ (extOk (s.data.map replChar) = true →
          (sanitize_filename s).length ≤ 255))
    ∧ sanitize_filename "a:b/c*d?.svg" = "a_b_c_d_.svg" := by
  refine ⟨?_, by decide⟩
  intro s
  by_cases hemp :
      (stripDotsSpaces (truncate255 (s.data.map replChar))).isEmpty = true
  · have hs : sanitize_filename s = "untitled" := by
      unfold sanitize_filename
      rw [if_pos hemp]
    rw [hs]
    exact ⟨by decide, by decide, ⟨by decide, by decide, by decide, by decide⟩,
      fun _ => by decide⟩
  · have hs : sanitize_filename s
        = String.mk (stripDotsSpaces (truncate255 (s.data.map replChar))) := by
      unfold sanitize_filename
      rw [if_neg hemp]
    have hne : stripDotsSpaces (truncate255 (s.data.map replChar)) ≠ [] := by
      intro he
      exact hemp (by rw [he]; rfl)
    rw [hs]
    refine ⟨?_, ?_, ⟨?_, ?_, ?_, ?_⟩, ?_⟩
    · intro c hc
      have hc2 : c ∈ stripDotsSpaces (truncate255 (s.data.map replChar)) := hc
      unfold stripDotsSpaces at hc2
      have hc3 := stripChars_subset hc2
      rcases truncate255_mem hc3 with hmem | hdot
      · rcases List.mem_map.mp hmem with ⟨x, _, hx⟩
        rw [← hx]
        unfold replChar
        by_cases hu : unsafeChars.contains x = true
        · rw [if_pos hu]
          decide
        · rw [if_neg hu]
          exact Bool.eq_false_iff.mpr hu
      · rw [hdot]
        decide
    · intro hEq
      have h2 := congrArg String.data hEq
      have h3 : stripDotsSpaces (truncate255 (s.data.map replChar)) = [] := by
        simpa using h2
      exact hne h3
    · intro hcontra
      have h2 : (stripDotsSpaces
          (truncate255 (s.data.map replChar))).head? = some '.' := hcontra
      unfold stripDotsSpaces at h2
      exact absurd (stripChars_head h2) (by decide)
    · intro hcontra
      have h2 : (stripDotsSpaces
          (truncate255 (s.data.map replChar))).head? = some ' ' := hcontra
      unfold stripDotsSpaces at h2
      exact absurd (stripChars_head h2) (by decide)
    · intro hcontra
      have h2 : (stripDotsSpaces
          (truncate255 (s.data.map replChar))).getLast? = some '.' := hcontra
      unfold stripDotsSpaces at h2
      exact absurd (stripChars_getLast h2) (by decide)
    · intro hcontra
      have h2 : (stripDotsSpaces
          (truncate255 (s.data.map replChar))).getLast? = some ' ' := hcontra
      unfold stripDotsSpaces at h2
      exact absurd (stripChars_getLast h2) (by decide)
    · intro hext
      have h1 : (String.mk
          (stripDotsSpaces (truncate255 (s.data.map replChar)))).length
          = (stripDotsSpaces (truncate255 (s.data.map replChar))).length := rfl
      rw [h1]
      calc (stripDotsSpaces (truncate255 (s.data.map replChar))).length
          ≤ (truncate255 (s.data.map replChar)).length :=
            stripChars_length_le _ _
        _ ≤ 255 := truncate255_length hext

/-- Witness for C6 at concrete inputs. -/
theorem C6_sanitize_filename_witness :
    unsafeChars.contains 'o' = false
    ∧ (sanitize_filename "doc.txt").length ≤ 255 :=
  ⟨(C6_sanitize_filename.1 "doc.txt").1 'o' (by decide),
   (C6_sanitize_filename.1 "doc.txt").2.2.2 (by decide)⟩
